import Mathlib

/-!
Verification of the ZenML service-lifecycle and deployment-reconciliation
subsystem: a shallow embedding of
`src/zenml/integrations/seldon/model_deployers/seldon_model_deployer.py`
and `src/zenml/services/local/local_service.py`, together with proofs of
the specified properties.

External collaborators that are part of the repository but not included in
the provided sources (the Seldon client, the Seldon deployment service, the
base service contract, and the daemon utilities) are modelled from the
specification; every such definition is marked `Modelled from the spec:` in
its doc comment.
-/

/-- Service states, from the service state machine (`zenml.services.service_status`,
declared in the spec: INACTIVE, STARTING, ACTIVE, STOPPING, ERROR). -/
inductive ServiceState where
  | INACTIVE
  | STARTING
  | ACTIVE
  | STOPPING
  | ERROR
deriving DecidableEq, Repr

/-- Embeds `SeldonDeploymentConfig` (fields visible at the deployer boundary:
`pipeline_name`, `pipeline_run_id`, `pipeline_step_name`, `model_name`,
`model_uri`, `implementation`). -/
structure SeldonDeploymentConfig where
  pipeline_name : String
  pipeline_run_id : String
  pipeline_step_name : String
  model_name : String
  model_uri : String
  implementation : String
deriving DecidableEq, Repr

/-- Modelled from the spec: `get_seldon_deployment_labels` of
`SeldonDeploymentConfig` (not under src/) derives a label set from the
subset of non-empty config fields; empty-string fields stand for "unset"
and contribute no label. -/
def get_seldon_deployment_labels (c : SeldonDeploymentConfig) :
    List (String × String) :=
  (if c.pipeline_name.isEmpty then [] else
    [("zenml.pipeline_name", c.pipeline_name)]) ++
  (if c.pipeline_run_id.isEmpty then [] else
    [("zenml.pipeline_run_id", c.pipeline_run_id)]) ++
  (if c.pipeline_step_name.isEmpty then [] else
    [("zenml.pipeline_step_name", c.pipeline_step_name)]) ++
  (if c.model_name.isEmpty then [] else
    [("zenml.model_name", c.model_name)]) ++
  (if c.model_uri.isEmpty then [] else
    [("zenml.model_uri", c.model_uri)]) ++
  (if c.implementation.isEmpty then [] else
    [("zenml.model_type", c.implementation)])

/-- Modelled from the spec: a remote deployment record (read-only snapshot
fetched through the Remote Client). It carries a creation timestamp
(`none` when missing) and the label set derived from a config's
equivalence key. `declaredState` is the state stored in the resource
snapshot itself; `currentState` is the state a per-instance status
evaluation of the reconstructed service reports; `stopFails` models the
environment: whether a `stop()` on the reconstructed service raises. -/
structure SeldonDeployment where
  labels : List (String × String)
  creationTimestamp : Option Nat
  config : SeldonDeploymentConfig
  endpointUrl : Option String
  declaredState : ServiceState
  currentState : ServiceState
  stopFails : Bool
deriving DecidableEq, Repr

/-- Modelled from the spec: the `SeldonDeploymentService` aggregate (not
under src/): stable identity (UUID), one config, optional endpoint, and a
status evaluated per instance. -/
structure SeldonDeploymentService where
  uuid : String
  config : SeldonDeploymentConfig
  endpoint : Option String
  creationTimestamp : Option Nat
  state : ServiceState
  stopFails : Bool
deriving DecidableEq, Repr

/-- Modelled from the spec: `SeldonDeploymentService.is_running` evaluates
the per-instance status and reports whether the state is ACTIVE. -/
def is_running (s : SeldonDeploymentService) : Bool :=
  s.state = ServiceState.ACTIVE

/-- Modelled from the spec: `SeldonDeploymentService.create_from_deployment`
(not under src/) reconstructs a Service object from a deployment record:
identity from the `zenml.service_uuid` label, config and endpoint from the
record, and a status that is evaluated per instance (`currentState`), not
read off the record's stored state. -/
def create_from_deployment (d : SeldonDeployment) : SeldonDeploymentService :=
  { uuid := (List.lookup "zenml.service_uuid" d.labels).getD ""
    config := d.config
    endpoint := d.endpointUrl
    creationTimestamp := d.creationTimestamp
    state := d.currentState
    stopFails := d.stopFails }

/-- Modelled from the spec: the Remote Client's `list(label filter)`
(`SeldonClient.find_deployments`, not under src/) returns the deployment
records whose label set matches every (key, value) pair of the filter. -/
def find_deployments (remote : List SeldonDeployment)
    (labels : List (String × String)) : List SeldonDeployment :=
  remote.filter (fun d => labels.all (fun kv => List.lookup kv.1 d.labels = some kv.2))

/-- Sort key used by `find_model_server`: the parsed creation timestamp,
with a missing timestamp mapped to the minimum (`datetime.min` in the
source, line 292). -/
def tsKey (d : SeldonDeployment) : Nat :=
  d.creationTimestamp.getD 0

/-- Stable descending insertion by a `Nat` key: `a` is placed before the
first element whose key is not larger, so elements with equal keys keep
their original relative order (as Python's stable `list.sort`). -/
def insertDesc (key : α → Nat) (a : α) : List α → List α
  | [] => [a]
  | b :: l => if key b ≤ key a then a :: b :: l else b :: insertDesc key a l

/-- Stable descending insertion sort by a `Nat` key, embedding
`deployments.sort(key=..., reverse=True)` (source lines 286-294). -/
def sortDesc (key : α → Nat) : List α → List α
  | [] => []
  | a :: l => insertDesc key a (sortDesc key l)

/-- The label filter computed by `find_model_server` (source lines 268-282):
labels derived from a config assembled from the non-`None` filter fields,
plus the `zenml.service_uuid` label when a service UUID is given. -/
def findLabels (service_uuid : Option String) (pipeline_name : Option String)
    (pipeline_run_id : Option String) (pipeline_step_name : Option String)
    (model_name : Option String) (model_uri : Option String)
    (model_type : Option String) : List (String × String) :=
  let config : SeldonDeploymentConfig :=
    { pipeline_name := pipeline_name.getD ""
      pipeline_run_id := pipeline_run_id.getD ""
      pipeline_step_name := pipeline_step_name.getD ""
      model_name := model_name.getD ""
      model_uri := model_uri.getD ""
      implementation := model_type.getD "" }
  let labels := get_seldon_deployment_labels config
  match service_uuid with
  | some u => labels ++ [("zenml.service_uuid", u)]
  | none => labels

/-- Embeds `SeldonModelDeployer.find_model_server` (source lines 231-308):
computes the label filter, queries the client, sorts the records by
creation time descending (missing timestamps as oldest), reconstructs a
service per record and, when `running` is set, skips services whose
evaluated status is not running. `remote` stands for the remote backend
state the Seldon client queries. -/
def find_model_server (remote : List SeldonDeployment) (running : Bool)
    (service_uuid : Option String) (pipeline_name : Option String)
    (pipeline_run_id : Option String) (pipeline_step_name : Option String)
    (model_name : Option String) (model_uri : Option String)
    (model_type : Option String) : List SeldonDeploymentService :=
  let labels := findLabels service_uuid pipeline_name pipeline_run_id
    pipeline_step_name model_name model_uri model_type
  let deployments := find_deployments remote labels
  let sorted := sortDesc tsKey deployments
  (sorted.map create_from_deployment).filter
    (fun s => !running || is_running s)

/-- `DEFAULT_SELDON_DEPLOYMENT_START_STOP_TIMEOUT` (source line 35). -/
def DEFAULT_SELDON_DEPLOYMENT_START_STOP_TIMEOUT : Nat := 300

/-- Observable side effects of the deployer operations, recorded as an
event trace by the embedding. -/
inductive DeployEvent where
  | findCalled (labels : List (String × String))
  | stopCalled (uuid : String) (timeout : Nat) (force : Bool)
  | stopErrorIgnored (uuid : String)
  | updateCalled (uuid : String)
  | createdNew (uuid : String)
  | startCalled (uuid : String) (timeout : Nat)
deriving DecidableEq, Repr

/-- Modelled from the spec: `BaseService.stop` on a reconstructed Seldon
service (not under src/) either succeeds or raises a `RuntimeError`
(timeout / operational failure), according to the environment flag
recorded on the service. -/
def stop_service (s : SeldonDeploymentService) : Except Unit Unit :=
  if s.stopFails then Except.error () else Except.ok ()

/-- Modelled from the spec: `BaseService.update(config)` replaces the
config in place without discarding the identity or the Endpoint. -/
def update_service (s : SeldonDeploymentService)
    (config : SeldonDeploymentConfig) : SeldonDeploymentService :=
  { s with config := config }

/-- Modelled from the spec: constructing a brand-new
`SeldonDeploymentService(config=config)` assigns a fresh identity (the
`fresh` UUID is supplied by the environment) and no endpoint yet. -/
def new_service (fresh : String) (config : SeldonDeploymentConfig) :
    SeldonDeploymentService :=
  { uuid := fresh
    config := config
    endpoint := none
    creationTimestamp := none
    state := ServiceState.INACTIVE
    stopFails := false }

/-- The events produced by one pass of `deploy_model`'s replace loop over
a superseded match (source lines 206-213). Note the call on source line
210 is `service.stop()`: it stops the KEPT update target, not the
superseded `equivalent_service` the adjacent comment says it deletes. The
stop is attempted with the default arguments and a `RuntimeError` raised
by it is caught and ignored. -/
def stop_target_events (target : SeldonDeploymentService) : List DeployEvent :=
  match stop_service target with
  | Except.ok _ =>
      [DeployEvent.stopCalled target.uuid DEFAULT_SELDON_DEPLOYMENT_START_STOP_TIMEOUT false]
  | Except.error _ =>
      [DeployEvent.stopCalled target.uuid DEFAULT_SELDON_DEPLOYMENT_START_STOP_TIMEOUT false,
       DeployEvent.stopErrorIgnored target.uuid]

/-- The equivalence-subset label filter `deploy_model` hands to
`find_model_server` (source lines 195-200): pipeline name, step name and
model name; pipeline run id, model URI and model type are not passed. -/
def equivalenceLabels (config : SeldonDeploymentConfig) : List (String × String) :=
  findLabels none (some config.pipeline_name) none
    (some config.pipeline_step_name) (some config.model_name) none none

/-- Embeds `SeldonModelDeployer.deploy_model` (source lines 133-229).
If `replace` is true it finds the equivalent deployments with the
non-running filter; the first (most recent) match is kept as the update
target and then, for every other match, the loop calls `service.stop()`
(source line 210) — a best-effort stop of the KEPT target, once per
superseded match, with no stop ever issued to a superseded instance. The
target is then updated in place, or a brand-new service is created when
there is no target (or when `replace` is false); finally the resulting
service is started and returned. The returned trace records the
observable effects. -/
def deploy_model (remote : List SeldonDeployment) (fresh : String)
    (config : SeldonDeploymentConfig) (replace : Bool) (timeout : Nat) :
    SeldonDeploymentService × List DeployEvent :=
  if replace then
    let equivalent_services := find_model_server remote false none
      (some config.pipeline_name) none (some config.pipeline_step_name)
      (some config.model_name) none none
    let evFind := [DeployEvent.findCalled (equivalenceLabels config)]
    match equivalent_services with
    | [] =>
        let s := new_service fresh config
        (s, evFind ++ [DeployEvent.createdNew fresh,
                       DeployEvent.startCalled s.uuid timeout])
    | target :: rest =>
        let stopEvs := rest.flatMap (fun _ => stop_target_events target)
        let s := update_service target config
        (s, evFind ++ stopEvs ++
            [DeployEvent.updateCalled target.uuid,
             DeployEvent.startCalled s.uuid timeout])
  else
    let s := new_service fresh config
    (s, [DeployEvent.createdNew fresh, DeployEvent.startCalled s.uuid timeout])

/-- Errors raised by the deployer operations. `notImplemented` embeds the
`NotImplementedError` of `stop_model_server`/`start_model_server`. -/
inductive DeployerError where
  | notImplemented
deriving DecidableEq, Repr

/-- Embeds `SeldonModelDeployer.stop_model_server` (source lines 310-326):
unconditionally raises `NotImplementedError`, before any side effect. -/
def stop_model_server (uuid : String) (timeout : Nat) (force : Bool) :
    Except DeployerError (List DeployEvent) :=
  Except.error DeployerError.notImplemented

/-- Embeds `SeldonModelDeployer.start_model_server` (source lines 328-344):
unconditionally raises `NotImplementedError`, before any side effect. -/
def start_model_server (uuid : String) (timeout : Nat) :
    Except DeployerError (List DeployEvent) :=
  Except.error DeployerError.notImplemented

/-- Embeds `SeldonModelDeployer.delete_model_server` (source lines
346-364): finds the services whose `zenml.service_uuid` label matches the
given UUID; if there is none it returns with no action, otherwise it calls
`stop(timeout, force)` on the first match. -/
def delete_model_server (remote : List SeldonDeployment) (uuid : String)
    (timeout : Nat) (force : Bool) : List DeployEvent :=
  let services := find_model_server remote false (some uuid) none none none
    none none none
  match services with
  | [] => []
  | s :: _ => [DeployEvent.stopCalled s.uuid timeout force]

/-- `SERVICE_DAEMON_CONFIG_FILE_NAME` (local_service.py line 37). -/
def SERVICE_DAEMON_CONFIG_FILE_NAME : String := "service.json"

/-- `SERVICE_DAEMON_LOG_FILE_NAME` (local_service.py line 38). -/
def SERVICE_DAEMON_LOG_FILE_NAME : String := "service.log"

/-- `SERVICE_DAEMON_PID_FILE_NAME` (local_service.py line 39). -/
def SERVICE_DAEMON_PID_FILE_NAME : String := "service.pid"

/-- `os.path.join` for the paths the local service builds. -/
def pathJoin (a b : String) : String := a ++ "/" ++ b

/-- Python truthiness of an optional string (`not self.runtime_path` is
true both for `None` and for the empty string). -/
def strOptTruthy : Option String → Bool
  | none => false
  | some s => !s.isEmpty

/-- Python truthiness of an optional integer (`if not self.status.pid`
is true both for `None` and for `0`). -/
def natOptTruthy : Option Nat → Bool
  | none => false
  | some n => n != 0

/-- Embeds `LocalDaemonServiceConfig` (local_service.py lines 42-54). -/
structure LocalDaemonServiceConfig where
  silent_daemon : Bool
  root_runtime_path : Option String
deriving DecidableEq, Repr

/-- Embeds `LocalDaemonServiceStatus` (local_service.py lines 57-127). -/
structure LocalDaemonServiceStatus where
  runtime_path : Option String
  silent_daemon : Bool
deriving DecidableEq, Repr

/-- `LocalDaemonServiceStatus.config_file` (local_service.py lines 74-85):
`None` when the runtime path is unset, otherwise the config file path. -/
def LocalDaemonServiceStatus.config_file (st : LocalDaemonServiceStatus) :
    Option String :=
  match st.runtime_path with
  | none => none
  | some rp =>
      if rp.isEmpty then none
      else some (pathJoin rp SERVICE_DAEMON_CONFIG_FILE_NAME)

/-- `LocalDaemonServiceStatus.log_file` (local_service.py lines 87-98):
`None` when the runtime path is unset or the daemon output is
suppressed. -/
def LocalDaemonServiceStatus.log_file (st : LocalDaemonServiceStatus) :
    Option String :=
  match st.runtime_path with
  | none => none
  | some rp =>
      if rp.isEmpty || st.silent_daemon then none
      else some (pathJoin rp SERVICE_DAEMON_LOG_FILE_NAME)

/-- `LocalDaemonServiceStatus.pid_file` (local_service.py lines 100-111):
`None` when the runtime path is unset or the daemon output is
suppressed. -/
def LocalDaemonServiceStatus.pid_file (st : LocalDaemonServiceStatus) :
    Option String :=
  match st.runtime_path with
  | none => none
  | some rp =>
      if rp.isEmpty || st.silent_daemon then none
      else some (pathJoin rp SERVICE_DAEMON_PID_FILE_NAME)

/-- The environment of a local daemon service: the PID files on disk (the
recorded process id at each path, `none` when the file is absent), process
liveness, directory existence, the directory a `tempfile.mkdtemp` call
would create, and the process id a spawned daemon would register. -/
structure LocalWorld where
  pidFile : String → Option Nat
  alive : Nat → Bool
  dirExists : String → Bool
  tmpdir : String
  spawnPid : Nat

/-- Modelled from the spec: `get_daemon_pid_if_running` from
`zenml.utils.daemon` (not under src/) returns the PID recorded in the PID
file if that process is alive, and `None` when the file is absent or the
recorded process is dead. -/
def get_daemon_pid_if_running (w : LocalWorld) (path : String) : Option Nat :=
  match w.pidFile path with
  | none => none
  | some p => if w.alive p then some p else none

/-- `LocalDaemonServiceStatus.pid` (local_service.py lines 113-127), on a
non-Windows platform: `None` when there is no PID file, otherwise the PID
of the daemon if it is running. -/
def LocalDaemonServiceStatus.pid (st : LocalDaemonServiceStatus)
    (w : LocalWorld) : Option Nat :=
  match st.pid_file with
  | none => none
  | some f => get_daemon_pid_if_running w f

/-- Embeds `LocalDaemonService` (local_service.py lines 130-192): config,
status and an optional endpoint (only its presence matters here). -/
structure LocalDaemonService where
  uuid : String
  config : LocalDaemonServiceConfig
  status : LocalDaemonServiceStatus
  endpoint : Option Unit

/-- `LocalDaemonService.check_status` (local_service.py lines 194-207):
INACTIVE with a diagnostic message when there is no live tracked PID,
ACTIVE otherwise. -/
def LocalDaemonService.check_status (svc : LocalDaemonService)
    (w : LocalWorld) : ServiceState × String :=
  if !natOptTruthy (svc.status.pid w) then
    (ServiceState.INACTIVE, "service daemon is not running")
  else
    (ServiceState.ACTIVE, "")

/-- The two assertions of `_get_daemon_cmd` (local_service.py lines
252-253). -/
inductive AssertError where
  | configFileNone
  | pidFileNone
deriving DecidableEq, Repr

/-- Observable side effects of the local daemon operations. -/
inductive LocalEvent where
  | preparedEndpoint
  | createdRuntimeDir (path : String)
  | wroteConfigFile (path : String)
  | removedPidFile (path : String)
  | touchedLogFile (path : String)
  | spawned (command : List String)
deriving DecidableEq, Repr

/-- Removing a file from the world. -/
def LocalWorld.removeFile (w : LocalWorld) (path : String) : LocalWorld :=
  { w with pidFile := fun x => if x = path then none else w.pidFile x }

/-- The fixed prefix of the daemon launch command
(local_service.py lines 263-271): the Python interpreter running the
`local_daemon_entrypoint` module. -/
def daemonCommandPrefix : List String :=
  ["python", "-m", "zenml.services.local.local_daemon_entrypoint"]

/-- Embeds `LocalDaemonService._get_daemon_cmd` (local_service.py lines
209-278): copies `silent_daemon` from the config into the status, ensures
a runtime directory (reusing a previous one when it still exists,
otherwise deriving it from `root_runtime_path` and the service UUID, or
from a fresh temporary directory), asserts that the config-file and
PID-file paths are set, writes the service definition to the config file,
removes a stale PID file left by a previous run, and builds the launch
command (with a log-file argument unless the daemon is silent). -/
def LocalDaemonService.get_daemon_cmd (svc : LocalDaemonService)
    (w : LocalWorld) :
    Except AssertError (LocalDaemonService × LocalWorld × List String × List LocalEvent) :=
  let st0 := { svc.status with silent_daemon := svc.config.silent_daemon }
  let (st1, w1, ev1) :=
    if !strOptTruthy st0.runtime_path
        || !w.dirExists (st0.runtime_path.getD "") then
      if strOptTruthy svc.config.root_runtime_path then
        let rp := pathJoin (svc.config.root_runtime_path.getD "") svc.uuid
        ({ st0 with runtime_path := some rp },
         { w with dirExists := fun x => if x = rp then true else w.dirExists x },
         [LocalEvent.createdRuntimeDir rp])
      else
        ({ st0 with runtime_path := some w.tmpdir }, w, [])
    else (st0, w, [])
  match st1.config_file with
  | none => Except.error AssertError.configFileNone
  | some cf =>
    match st1.pid_file with
    | none => Except.error AssertError.pidFileNone
    | some pf =>
      let ev2 := ev1 ++ [LocalEvent.wroteConfigFile cf]
      let (w2, ev3) :=
        if (w1.pidFile pf).isSome then
          (w1.removeFile pf, ev2 ++ [LocalEvent.removedPidFile pf])
        else (w1, ev2)
      let command := daemonCommandPrefix ++
        ["--config-file", cf, "--pid-file", pf]
      let (command, ev4) :=
        match st1.log_file with
        | some lf =>
            (command ++ ["--log-file", lf], ev3 ++ [LocalEvent.touchedLogFile lf])
        | none => (command, ev3)
      Except.ok ({ svc with status := st1 }, w2, command, ev4)

/-- Embeds `LocalDaemonService._start_daemon` (local_service.py lines
280-317): if a live PID is already tracked, return without doing anything;
otherwise prepare the endpoint, build the daemon command (which clears any
stale PID file) and spawn the daemon process, which registers its own PID
in the PID file. -/
def LocalDaemonService.start_daemon (svc : LocalDaemonService)
    (w : LocalWorld) :
    Except AssertError (LocalDaemonService × LocalWorld × List LocalEvent) :=
  if natOptTruthy (svc.status.pid w) then
    Except.ok (svc, w, [])
  else
    let ev0 := if svc.endpoint.isSome then [LocalEvent.preparedEndpoint] else []
    match svc.get_daemon_cmd w with
    | Except.error e => Except.error e
    | Except.ok (svc1, w1, command, ev1) =>
        let pf := svc1.status.pid_file.getD ""
        let w2 := { w1 with
          pidFile := fun x => if x = pf then some w1.spawnPid else w1.pidFile x }
        Except.ok (svc1, w2, ev0 ++ ev1 ++ [LocalEvent.spawned command])

/-- Sort key of a reconstructed service: creation timestamp, missing as
oldest. -/
def svcKey (s : SeldonDeploymentService) : Nat :=
  s.creationTimestamp.getD 0

theorem insertDesc_perm (key : α → Nat) (a : α) (l : List α) :
    List.Perm (insertDesc key a l) (a :: l) := by
  induction l with
  | nil => simp [insertDesc]
  | cons b l ih =>
      by_cases h : key b ≤ key a
      · simp [insertDesc, h]
      · simp only [insertDesc, if_neg h]
        exact (ih.cons b).trans (List.Perm.swap a b l)

theorem sortDesc_perm (key : α → Nat) (l : List α) :
    List.Perm (sortDesc key l) l := by
  induction l with
  | nil => simp [sortDesc]
  | cons a l ih =>
      exact (insertDesc_perm key a (sortDesc key l)).trans (ih.cons a)

theorem mem_insertDesc (key : α → Nat) (a x : α) (l : List α) :
    x ∈ insertDesc key a l ↔ x = a ∨ x ∈ l := by
  rw [(insertDesc_perm key a l).mem_iff]
  simp

theorem pairwise_insertDesc (key : α → Nat) (a : α) (l : List α)
    (h : l.Pairwise (fun x y => key y ≤ key x)) :
    (insertDesc key a l).Pairwise (fun x y => key y ≤ key x) := by
  induction l with
  | nil => simp [insertDesc]
  | cons b l ih =>
      rcases List.pairwise_cons.mp h with ⟨hb, hl⟩
      by_cases hba : key b ≤ key a
      · simp only [insertDesc, if_pos hba]
        refine List.pairwise_cons.mpr ⟨?_, h⟩
        intro x hx
        rcases List.mem_cons.mp hx with rfl | hx
        · exact hba
        · exact le_trans (hb x hx) hba
      · simp only [insertDesc, if_neg hba]
        refine List.pairwise_cons.mpr ⟨?_, ih hl⟩
        intro x hx
        rcases (mem_insertDesc key a x l).mp hx with rfl | hx
        · exact le_of_not_le hba
        · exact hb x hx

theorem pairwise_sortDesc (key : α → Nat) (l : List α) :
    (sortDesc key l).Pairwise (fun x y => key y ≤ key x) := by
  induction l with
  | nil => simp [sortDesc]
  | cons a l ih => exact pairwise_insertDesc key a (sortDesc key l) ih

/-- The services returned by `find_model_server` are exactly the
reconstructions of the records the client returned for the computed label
filter that pass the running filter. -/
theorem mem_find_model_server (remote : List SeldonDeployment)
    (running : Bool) (su pn pr ps mn mu mt : Option String)
    (s : SeldonDeploymentService) :
    s ∈ find_model_server remote running su pn pr ps mn mu mt ↔
      (∃ d, d ∈ find_deployments remote (findLabels su pn pr ps mn mu mt) ∧
        create_from_deployment d = s) ∧ (!running || is_running s) = true := by
  simp only [find_model_server, List.mem_filter, List.mem_map]
  constructor
  · rintro ⟨⟨d, hd, rfl⟩, hrun⟩
    exact ⟨⟨d, (sortDesc_perm tsKey _).mem_iff.mp hd, rfl⟩, hrun⟩
  · rintro ⟨⟨d, hd, rfl⟩, hrun⟩
    exact ⟨⟨d, (sortDesc_perm tsKey _).mem_iff.mpr hd, rfl⟩, hrun⟩

/-- The output of `find_model_server` is sorted by creation timestamp,
descending. -/
theorem find_model_server_sorted (remote : List SeldonDeployment)
    (running : Bool) (su pn pr ps mn mu mt : Option String) :
    (find_model_server remote running su pn pr ps mn mu mt).Pairwise
      (fun s t => svcKey t ≤ svcKey s) := by
  unfold find_model_server
  refine List.Pairwise.sublist (List.filter_sublist _) ?_
  refine (List.pairwise_map).mpr ?_
  have h := pairwise_sortDesc tsKey
    (find_deployments remote (findLabels su pn pr ps mn mu mt))
  exact h.imp (fun hxy => hxy)

/-- With no filter fields, `find_model_server` queries with an empty label
set and therefore returns every remote record, sorted and reconstructed. -/
theorem find_model_server_no_filter (remote : List SeldonDeployment) :
    find_model_server remote false none none none none none none none =
      (sortDesc tsKey remote).map create_from_deployment := by
  show (((sortDesc tsKey (remote.filter _)).map create_from_deployment).filter _) = _
  rw [List.filter_eq_self.mpr (by intro a _; rfl),
      List.filter_eq_self.mpr (by intro a _; rfl)]

/-- A sample deployment record used to instantiate the theorems. -/
def sampleRecord (u : String) (ts : Option Nat)
    (declared current : ServiceState) (fails : Bool) : SeldonDeployment :=
  { labels := [("zenml.service_uuid", u), ("zenml.pipeline_name", "p"),
      ("zenml.pipeline_step_name", "s"), ("zenml.model_name", "m")]
    creationTimestamp := ts
    config :=
      { pipeline_name := "p", pipeline_run_id := "run1",
        pipeline_step_name := "s", model_name := "m",
        model_uri := "s3://models/v1", implementation := "SKLEARN_SERVER" }
    endpointUrl := some ("http://ingress/" ++ u)
    declaredState := declared
    currentState := current
    stopFails := fails }

/-- C3: for every list of deployment records returned by the Remote
Client, `find_model_server` returns the reconstructed services sorted by
creation timestamp in descending order (most recent first), with a missing
timestamp sorting as the oldest (its key is the minimum); the result is a
permutation of the reconstructions of all records; and on records with
timestamps T1 < T2 < T3 (plus one with no timestamp) the result order is
[T3, T2, T1, missing]. -/
theorem find_returns_services_newest_first :
    (∀ remote : List SeldonDeployment,
      (find_model_server remote false none none none none none none
          none).Pairwise (fun s t => svcKey t ≤ svcKey s) ∧
      List.Perm
        (find_model_server remote false none none none none none none none)
        (remote.map create_from_deployment)) ∧
    find_model_server
        [sampleRecord "u0" none ServiceState.ACTIVE ServiceState.ACTIVE false,
         sampleRecord "u1" (some 1) ServiceState.ACTIVE ServiceState.ACTIVE false,
         sampleRecord "u3" (some 3) ServiceState.ACTIVE ServiceState.ACTIVE false,
         sampleRecord "u2" (some 2) ServiceState.ACTIVE ServiceState.ACTIVE false]
        false none none none none none none none =
      [create_from_deployment
         (sampleRecord "u3" (some 3) ServiceState.ACTIVE ServiceState.ACTIVE false),
       create_from_deployment
         (sampleRecord "u2" (some 2) ServiceState.ACTIVE ServiceState.ACTIVE false),
       create_from_deployment
         (sampleRecord "u1" (some 1) ServiceState.ACTIVE ServiceState.ACTIVE false),
       create_from_deployment
         (sampleRecord "u0" none ServiceState.ACTIVE ServiceState.ACTIVE false)] := by
  refine ⟨fun remote => ⟨find_model_server_sorted remote false none none none none none none none, ?_⟩, ?_⟩
  · rw [find_model_server_no_filter]
    exact (sortDesc_perm tsKey remote).map create_from_deployment
  · rfl

/-- C7: with `running=true`, a service reconstructed from a deployment
record is included in the result of `find_model_server` if and only if its
evaluated per-instance status is running (state ACTIVE); the filter is
applied to the reconstructed service's evaluated state, not to the state
stored in the record: a record whose snapshot claims ACTIVE but whose
evaluated state is ERROR is excluded, and one whose snapshot claims ERROR
but evaluates to ACTIVE is included. -/
theorem find_running_filter_uses_evaluated_status :
    (∀ (remote : List SeldonDeployment) (su pn pr ps mn mu mt : Option String)
        (s : SeldonDeploymentService),
      s ∈ find_model_server remote true su pn pr ps mn mu mt ↔
        (∃ d, d ∈ find_deployments remote (findLabels su pn pr ps mn mu mt) ∧
          create_from_deployment d = s) ∧ s.state = ServiceState.ACTIVE) ∧
    find_model_server
        [sampleRecord "u1" (some 1) ServiceState.ACTIVE ServiceState.ERROR false]
        true none none none none none none none = [] ∧
    find_model_server
        [sampleRecord "u2" (some 2) ServiceState.ERROR ServiceState.ACTIVE false]
        true none none none none none none none =
      [create_from_deployment
        (sampleRecord "u2" (some 2) ServiceState.ERROR ServiceState.ACTIVE false)] := by
  refine ⟨fun remote su pn pr ps mn mu mt s => ?_, rfl, rfl⟩
  rw [mem_find_model_server]
  simp [is_running]

/-- The label filter used when searching by service UUID alone. -/
theorem findLabels_uuid_only (u : String) :
    findLabels (some u) none none none none none none =
      [("zenml.service_uuid", u)] := rfl

/-- A service found by a UUID-only search carries that UUID. -/
theorem uuid_of_mem_find_by_uuid (remote : List SeldonDeployment)
    (u : String) (s : SeldonDeploymentService)
    (h : s ∈ find_model_server remote false (some u) none none none none
      none none) : s.uuid = u := by
  rcases (mem_find_model_server remote false (some u) none none none none
    none none s).mp h with ⟨⟨d, hd, rfl⟩, -⟩
  rw [findLabels_uuid_only] at hd
  rcases List.mem_filter.mp hd with ⟨-, hall⟩
  simp only [List.all_cons, List.all_nil, Bool.and_true, decide_eq_true_eq] at hall
  simp [create_from_deployment, hall]

/-- C4: `delete_model_server` is idempotent: when no deployed service
matches the given UUID it returns with no action and an empty effect
trace; when the match is unique, `stop(timeout, force)` is called on
exactly that single match (whose identity is the given UUID) and on no
other service. -/
theorem delete_is_idempotent_and_targeted :
    ∀ (remote : List SeldonDeployment) (u : String) (timeout : Nat)
      (force : Bool),
    (find_model_server remote false (some u) none none none none none none
        = [] →
      delete_model_server remote u timeout force = []) ∧
    (∀ s, find_model_server remote false (some u) none none none none none
        none = [s] →
      delete_model_server remote u timeout force =
        [DeployEvent.stopCalled s.uuid timeout force] ∧ s.uuid = u) := by
  intro remote u timeout force
  constructor
  · intro h
    unfold delete_model_server
    rw [h]
  · intro s h
    refine ⟨?_, ?_⟩
    · unfold delete_model_server
      rw [h]
    · exact uuid_of_mem_find_by_uuid remote u s (h ▸ List.mem_singleton.mpr rfl)

/-- C4 witness: a concrete instance of `delete_is_idempotent_and_targeted`
for an empty backend and for a backend holding exactly one matching
record. -/
theorem delete_is_idempotent_and_targeted_instance :
    delete_model_server [] "u9" 10 true = [] ∧
    delete_model_server
        [sampleRecord "u9" (some 5) ServiceState.ACTIVE ServiceState.ACTIVE false]
        "u9" 10 true = [DeployEvent.stopCalled "u9" 10 true] := by
  refine ⟨(delete_is_idempotent_and_targeted [] "u9" 10 true).1 rfl, ?_⟩
  have h := ((delete_is_idempotent_and_targeted
      [sampleRecord "u9" (some 5) ServiceState.ACTIVE ServiceState.ACTIVE false]
      "u9" 10 true).2
    (create_from_deployment
      (sampleRecord "u9" (some 5) ServiceState.ACTIVE ServiceState.ACTIVE false))
    rfl).1
  rw [h]
  rfl

/-- C6: the standalone start-by-id and stop-by-id operations of the Seldon
model deployer always fail immediately with `NotImplementedError`, for
every UUID, timeout and force argument, without performing any side
effect. -/
theorem remote_stop_start_by_id_unsupported :
    ∀ (u : String) (timeout : Nat) (force : Bool) (timeout2 : Nat),
      stop_model_server u timeout force =
        Except.error DeployerError.notImplemented ∧
      start_model_server u timeout2 =
        Except.error DeployerError.notImplemented := by
  intro u timeout force timeout2
  exact ⟨rfl, rfl⟩

/-- A config for a new model version: same pipeline, step and model name
as `sampleRecord`, different model URI. -/
def sampleConfigV2 : SeldonDeploymentConfig :=
  { pipeline_name := "p", pipeline_run_id := "run2",
    pipeline_step_name := "s", model_name := "m",
    model_uri := "s3://models/v2", implementation := "SKLEARN_SERVER" }

/-- A pass of the replace loop only ever stops the kept target: every stop
event it records names the target's identity. -/
theorem stopCalled_only_target (target : SeldonDeploymentService)
    (u : String) (t : Nat) (f : Bool)
    (h : DeployEvent.stopCalled u t f ∈ stop_target_events target) :
    u = target.uuid := by
  simp only [stop_target_events, stop_service] at h
  by_cases hf : target.stopFails <;> simp [hf] at h <;> exact h.1

/-- A pass of the replace loop never constructs a new service. -/
theorem createdNew_not_mem_stop_target (target : SeldonDeploymentService)
    (u : String) : DeployEvent.createdNew u ∉ stop_target_events target := by
  simp only [stop_target_events, stop_service]
  by_cases h : target.stopFails <;> simp [h]

/-- The equivalence-subset labels never constrain the model URI. -/
theorem model_uri_not_mem_equivalenceLabels (config : SeldonDeploymentConfig)
    (v : String) : ("zenml.model_uri", v) ∉ equivalenceLabels config := by
  intro hv
  have he : ("" : String).isEmpty = true := rfl
  simp only [equivalenceLabels, findLabels, get_seldon_deployment_labels] at hv
  by_cases h1 : config.pipeline_name.isEmpty <;>
    by_cases h2 : config.pipeline_step_name.isEmpty <;>
    by_cases h3 : config.model_name.isEmpty <;>
    simp [h1, h2, h3, he] at hv

/-- When `deploy_model` is called with `replace=true` and the equivalence
search finds `target :: rest`, it returns the in-place update of `target`
together with the recorded trace. -/
theorem deploy_model_replace_eq (remote : List SeldonDeployment)
    (fresh : String) (config : SeldonDeploymentConfig) (timeout : Nat)
    (target : SeldonDeploymentService) (rest : List SeldonDeploymentService)
    (h : find_model_server remote false none (some config.pipeline_name) none
      (some config.pipeline_step_name) (some config.model_name) none none =
      target :: rest) :
    deploy_model remote fresh config true timeout =
      (update_service target config,
       DeployEvent.findCalled (equivalenceLabels config) ::
         (rest.flatMap (fun _ => stop_target_events target) ++
          [DeployEvent.updateCalled target.uuid,
           DeployEvent.startCalled target.uuid timeout])) := by
  simp [deploy_model, h, update_service]

/-- C1: for every `deploy_model(config, replace=true, timeout)` call where
the equivalence-subset search (pipeline name, step name, model name; model
URI excluded) with the non-running filter returns one or more matches, the
most recent match (the head of the descending-sorted result, whose
timestamp key dominates every other match) is selected as the update
target; `update(config)` is called on that same service, preserving its
identity and endpoint, no new service is constructed, and `start(timeout)`
is called on it and it is returned. -/
theorem deploy_replace_selects_most_recent_target :
    ∀ (remote : List SeldonDeployment) (fresh : String)
      (config : SeldonDeploymentConfig) (timeout : Nat)
      (target : SeldonDeploymentService)
      (rest : List SeldonDeploymentService),
    find_model_server remote false none (some config.pipeline_name) none
        (some config.pipeline_step_name) (some config.model_name) none none =
      target :: rest →
    (deploy_model remote fresh config true timeout).1 =
        update_service target config ∧
    (deploy_model remote fresh config true timeout).1.uuid = target.uuid ∧
    (deploy_model remote fresh config true timeout).1.endpoint =
        target.endpoint ∧
    (deploy_model remote fresh config true timeout).1.config = config ∧
    DeployEvent.updateCalled target.uuid ∈
        (deploy_model remote fresh config true timeout).2 ∧
    DeployEvent.startCalled target.uuid timeout ∈
        (deploy_model remote fresh config true timeout).2 ∧
    (∀ u, DeployEvent.createdNew u ∉
        (deploy_model remote fresh config true timeout).2) ∧
    DeployEvent.findCalled (equivalenceLabels config) ∈
        (deploy_model remote fresh config true timeout).2 ∧
    (∀ v, ("zenml.model_uri", v) ∉ equivalenceLabels config) ∧
    (∀ s ∈ rest, svcKey s ≤ svcKey target) := by
  intro remote fresh config timeout target rest h
  have hd := deploy_model_replace_eq remote fresh config timeout target rest h
  rw [hd]
  refine ⟨rfl, rfl, rfl, rfl, by simp, by simp, ?_, by simp,
    model_uri_not_mem_equivalenceLabels config, ?_⟩
  · intro u hu
    rcases List.mem_cons.mp hu with h1 | hu2
    · exact DeployEvent.noConfusion h1
    rcases List.mem_append.mp hu2 with h2 | h3
    · rcases List.mem_flatMap.mp h2 with ⟨s, -, h2m⟩
      exact createdNew_not_mem_stop_target target u h2m
    · simp at h3
  · have hs := find_model_server_sorted remote false none
      (some config.pipeline_name) none (some config.pipeline_step_name)
      (some config.model_name) none none
    rw [h] at hs
    exact (List.pairwise_cons.mp hs).1

/-- C1 witness: with two equivalent deployments on the backend (model URIs
of an older version) and a v2 config, the newer one (`u2`) is updated in
place, keeps its identity and endpoint, and is started. -/
theorem deploy_replace_selects_most_recent_target_instance :
    ((deploy_model
        [sampleRecord "u1" (some 1) ServiceState.ACTIVE ServiceState.ACTIVE false,
         sampleRecord "u2" (some 2) ServiceState.ACTIVE ServiceState.ACTIVE false]
        "fresh9" sampleConfigV2 true 30).1.uuid = "u2" ∧
     (deploy_model
        [sampleRecord "u1" (some 1) ServiceState.ACTIVE ServiceState.ACTIVE false,
         sampleRecord "u2" (some 2) ServiceState.ACTIVE ServiceState.ACTIVE false]
        "fresh9" sampleConfigV2 true 30).1.endpoint = some "http://ingress/u2" ∧
     (deploy_model
        [sampleRecord "u1" (some 1) ServiceState.ACTIVE ServiceState.ACTIVE false,
         sampleRecord "u2" (some 2) ServiceState.ACTIVE ServiceState.ACTIVE false]
        "fresh9" sampleConfigV2 true 30).1.config = sampleConfigV2) ∧
    DeployEvent.updateCalled "u2" ∈
      (deploy_model
        [sampleRecord "u1" (some 1) ServiceState.ACTIVE ServiceState.ACTIVE false,
         sampleRecord "u2" (some 2) ServiceState.ACTIVE ServiceState.ACTIVE false]
        "fresh9" sampleConfigV2 true 30).2 := by
  have h := deploy_replace_selects_most_recent_target
    [sampleRecord "u1" (some 1) ServiceState.ACTIVE ServiceState.ACTIVE false,
     sampleRecord "u2" (some 2) ServiceState.ACTIVE ServiceState.ACTIVE false]
    "fresh9" sampleConfigV2 30
    (create_from_deployment
      (sampleRecord "u2" (some 2) ServiceState.ACTIVE ServiceState.ACTIVE false))
    [create_from_deployment
      (sampleRecord "u1" (some 1) ServiceState.ACTIVE ServiceState.ACTIVE false)]
    rfl
  exact ⟨⟨h.2.1, h.2.2.1, h.2.2.2.1⟩, h.2.2.2.2.1⟩

/-- C2 (code bug): evaluated at a concrete replace call with two
equivalent existing deployments (`u1`, older, and `u2`, most recent), the
replace loop's `service.stop()` (source line 210) stops the kept
most-recent target `u2` — once for the single superseded match — and no
stop of the superseded instance `u1` ever appears on the trace, for any
timeout or force arguments. This contradicts the source's own comments
("delete the older services", "ignore errors encountered while stopping
old services") and the best-effort-cleanup contract. -/
theorem deploy_replace_never_stops_superseded :
    (deploy_model
        [sampleRecord "u1" (some 1) ServiceState.ACTIVE ServiceState.ACTIVE false,
         sampleRecord "u2" (some 2) ServiceState.ACTIVE ServiceState.ACTIVE false]
        "fresh9" sampleConfigV2 true 30).2 =
      [DeployEvent.findCalled (equivalenceLabels sampleConfigV2),
       DeployEvent.stopCalled "u2"
         DEFAULT_SELDON_DEPLOYMENT_START_STOP_TIMEOUT false,
       DeployEvent.updateCalled "u2",
       DeployEvent.startCalled "u2" 30] ∧
    (∀ t f, DeployEvent.stopCalled "u1" t f ∉
      (deploy_model
        [sampleRecord "u1" (some 1) ServiceState.ACTIVE ServiceState.ACTIVE false,
         sampleRecord "u2" (some 2) ServiceState.ACTIVE ServiceState.ACTIVE false]
        "fresh9" sampleConfigV2 true 30).2) := by
  have he :
      (deploy_model
        [sampleRecord "u1" (some 1) ServiceState.ACTIVE ServiceState.ACTIVE false,
         sampleRecord "u2" (some 2) ServiceState.ACTIVE ServiceState.ACTIVE false]
        "fresh9" sampleConfigV2 true 30).2 =
      [DeployEvent.findCalled (equivalenceLabels sampleConfigV2),
       DeployEvent.stopCalled "u2"
         DEFAULT_SELDON_DEPLOYMENT_START_STOP_TIMEOUT false,
       DeployEvent.updateCalled "u2",
       DeployEvent.startCalled "u2" 30] := rfl
  refine ⟨he, ?_⟩
  intro t f hmem
  rw [he] at hmem
  simp at hmem

/-- C2 instance: no stop of the superseded `u1` with the default stop
arguments either. -/
theorem deploy_replace_never_stops_superseded_instance :
    DeployEvent.stopCalled "u1"
        DEFAULT_SELDON_DEPLOYMENT_START_STOP_TIMEOUT false ∉
      (deploy_model
        [sampleRecord "u1" (some 1) ServiceState.ACTIVE ServiceState.ACTIVE false,
         sampleRecord "u2" (some 2) ServiceState.ACTIVE ServiceState.ACTIVE false]
        "fresh9" sampleConfigV2 true 30).2 :=
  deploy_replace_never_stops_superseded.2
    DEFAULT_SELDON_DEPLOYMENT_START_STOP_TIMEOUT false

/-- C8: for every `deploy_model(config, replace=false, timeout)` call, a
brand-new service with a fresh identity is constructed and started; no
existing deployment is searched for, updated, or stopped; and under the
environment guarantee that the fresh UUID is unused, the returned identity
differs from the identity of every reconstructed existing deployment. -/
theorem deploy_without_replace_creates_fresh_service :
    ∀ (remote : List SeldonDeployment) (fresh : String)
      (config : SeldonDeploymentConfig) (timeout : Nat),
    deploy_model remote fresh config false timeout =
      (new_service fresh config,
       [DeployEvent.createdNew fresh,
        DeployEvent.startCalled fresh timeout]) ∧
    (new_service fresh config).uuid = fresh ∧
    (new_service fresh config).config = config ∧
    (∀ ls, DeployEvent.findCalled ls ∉
        (deploy_model remote fresh config false timeout).2) ∧
    (∀ u t f, DeployEvent.stopCalled u t f ∉
        (deploy_model remote fresh config false timeout).2) ∧
    (∀ u, DeployEvent.updateCalled u ∉
        (deploy_model remote fresh config false timeout).2) ∧
    (∀ d, d ∈ remote → (create_from_deployment d).uuid ≠ fresh →
      (deploy_model remote fresh config false timeout).1.uuid ≠
        (create_from_deployment d).uuid) := by
  intro remote fresh config timeout
  refine ⟨rfl, rfl, rfl, ?_, ?_, ?_, ?_⟩
  · intro ls; simp [deploy_model]
  · intro u t f; simp [deploy_model]
  · intro u; simp [deploy_model]
  · intro d _ hne
    simp only [deploy_model, new_service]
    exact fun hc => hne hc.symm

/-- C8 witness: against a backend holding one equivalent deployment, a
non-replace deploy returns a brand-new service with the fresh identity and
never touches the existing one. -/
theorem deploy_without_replace_creates_fresh_service_instance :
    deploy_model
        [sampleRecord "u1" (some 1) ServiceState.ACTIVE ServiceState.ACTIVE false]
        "fresh9" sampleConfigV2 false 30 =
      (new_service "fresh9" sampleConfigV2,
       [DeployEvent.createdNew "fresh9",
        DeployEvent.startCalled "fresh9" 30]) ∧
    (deploy_model
        [sampleRecord "u1" (some 1) ServiceState.ACTIVE ServiceState.ACTIVE false]
        "fresh9" sampleConfigV2 false 30).1.uuid ≠
      (create_from_deployment
        (sampleRecord "u1" (some 1) ServiceState.ACTIVE ServiceState.ACTIVE
          false)).uuid := by
  have h := deploy_without_replace_creates_fresh_service
    [sampleRecord "u1" (some 1) ServiceState.ACTIVE ServiceState.ACTIVE false]
    "fresh9" sampleConfigV2 30
  exact ⟨h.1, h.2.2.2.2.2.2
    (sampleRecord "u1" (some 1) ServiceState.ACTIVE ServiceState.ACTIVE false)
    (List.mem_singleton.mpr rfl) (by decide)⟩

/-- C9: for a locally supervised service, `check_status` is determined by
whether the tracked process id is alive: when no live tracked PID exists
(`status.pid` is `None`) it returns INACTIVE with a diagnostic message,
and when the tracked PID is alive (a nonzero `status.pid`, which by the
PID-tracking model implies the process is alive) it returns ACTIVE. -/
theorem check_status_tracks_process_liveness :
    ∀ (svc : LocalDaemonService) (w : LocalWorld),
    (svc.status.pid w = none →
      svc.check_status w =
        (ServiceState.INACTIVE, "service daemon is not running")) ∧
    (∀ p, svc.status.pid w = some p → p ≠ 0 →
      w.alive p = true ∧
      svc.check_status w = (ServiceState.ACTIVE, "")) := by
  intro svc w
  constructor
  · intro h
    simp [LocalDaemonService.check_status, h, natOptTruthy]
  · intro p h hp
    constructor
    · unfold LocalDaemonServiceStatus.pid at h
      cases hpf : svc.status.pid_file with
      | none => simp [hpf] at h
      | some f =>
          simp only [hpf] at h
          unfold get_daemon_pid_if_running at h
          cases hw : w.pidFile f with
          | none => simp [hw] at h
          | some q =>
              simp only [hw] at h
              by_cases ha : w.alive q = true
              · simp only [ha, if_true] at h
                obtain rfl : q = p := Option.some.inj h
                exact ha
              · simp [ha] at h
    · simp [LocalDaemonService.check_status, h, natOptTruthy, hp]

/-- C9 witness: a world where the recorded PID 7 is alive makes
`check_status` report ACTIVE; a world with no PID file makes it report
INACTIVE with the diagnostic message. -/
theorem check_status_tracks_process_liveness_instance :
    LocalDaemonService.check_status
        ⟨"u", ⟨false, none⟩, ⟨some "rt", false⟩, none⟩
        ⟨fun _ => none, fun _ => false, fun _ => true, "/tmp/t", 42⟩ =
      (ServiceState.INACTIVE, "service daemon is not running") ∧
    LocalDaemonService.check_status
        ⟨"u", ⟨false, none⟩, ⟨some "rt", false⟩, none⟩
        ⟨fun _ => some 7, fun _ => true, fun _ => true, "/tmp/t", 42⟩ =
      (ServiceState.ACTIVE, "") := by
  refine ⟨(check_status_tracks_process_liveness
      ⟨"u", ⟨false, none⟩, ⟨some "rt", false⟩, none⟩
      ⟨fun _ => none, fun _ => false, fun _ => true, "/tmp/t", 42⟩).1 rfl,
    ((check_status_tracks_process_liveness
      ⟨"u", ⟨false, none⟩, ⟨some "rt", false⟩, none⟩
      ⟨fun _ => some 7, fun _ => true, fun _ => true, "/tmp/t", 42⟩).2 7
      rfl (by decide)).2⟩

/-- C10: for every local daemon service whose configuration sets
`silent_daemon=True`: once `status.silent_daemon` is set, the `pid_file`
property returns `None` and `status.pid` is always `None`; consequently
the `self.status.pid_file is not None` assertion of `_get_daemon_cmd`
fails when provisioning (with a set, existing runtime directory, so that
the earlier config-file assertion passes), and `check_status` reports
INACTIVE regardless of the world — even one where a daemon process is
actually running. -/
theorem silent_daemon_disables_pid_tracking :
    ∀ (svc : LocalDaemonService) (w : LocalWorld),
    svc.config.silent_daemon = true →
    (∀ st : LocalDaemonServiceStatus, st.silent_daemon = true →
      st.pid_file = none ∧ ∀ w2 : LocalWorld, st.pid w2 = none) ∧
    (strOptTruthy svc.status.runtime_path = true →
      w.dirExists (svc.status.runtime_path.getD "") = true →
      svc.get_daemon_cmd w = Except.error AssertError.pidFileNone) ∧
    (svc.status.silent_daemon = true →
      ∀ w2 : LocalWorld, svc.check_status w2 =
        (ServiceState.INACTIVE, "service daemon is not running")) := by
  intro svc w hcfg
  refine ⟨?_, ?_, ?_⟩
  · intro st hst
    have hpf : st.pid_file = none := by
      unfold LocalDaemonServiceStatus.pid_file
      cases st.runtime_path with
      | none => rfl
      | some rp => simp [hst]
    refine ⟨hpf, fun w2 => ?_⟩
    unfold LocalDaemonServiceStatus.pid
    rw [hpf]
  · intro hrt hdir
    cases hrp : svc.status.runtime_path with
    | none => rw [hrp] at hrt; simp [strOptTruthy] at hrt
    | some rp =>
        rw [hrp] at hrt hdir
        simp only [Option.getD_some] at hdir
        have hne : rp.isEmpty = false := by
          simpa [strOptTruthy] using hrt
        simp [LocalDaemonService.get_daemon_cmd, hcfg, hrp, strOptTruthy,
          hne, hdir, LocalDaemonServiceStatus.config_file,
          LocalDaemonServiceStatus.pid_file]
  · intro hsil w2
    have hpf : svc.status.pid_file = none := by
      unfold LocalDaemonServiceStatus.pid_file
      cases svc.status.runtime_path with
      | none => rfl
      | some rp => simp [hsil]
    have hpid : svc.status.pid w2 = none := by
      unfold LocalDaemonServiceStatus.pid
      rw [hpf]
    simp [LocalDaemonService.check_status, hpid, natOptTruthy]

/-- C10 witness: a silent-daemon service with a set, existing runtime
directory: the PID file path is `None`, `_get_daemon_cmd` fails on the
PID-file assertion, and `check_status` reports INACTIVE in a world whose
every process is alive. -/
theorem silent_daemon_disables_pid_tracking_instance :
    LocalDaemonServiceStatus.pid_file ⟨some "rt", true⟩ = none ∧
    LocalDaemonService.get_daemon_cmd
        ⟨"u", ⟨true, none⟩, ⟨some "rt", true⟩, none⟩
        ⟨fun _ => some 7, fun _ => true, fun _ => true, "/tmp/t", 42⟩ =
      Except.error AssertError.pidFileNone ∧
    LocalDaemonService.check_status
        ⟨"u", ⟨true, none⟩, ⟨some "rt", true⟩, none⟩
        ⟨fun _ => some 7, fun _ => true, fun _ => true, "/tmp/t", 42⟩ =
      (ServiceState.INACTIVE, "service daemon is not running") := by
  have h := silent_daemon_disables_pid_tracking
    ⟨"u", ⟨true, none⟩, ⟨some "rt", true⟩, none⟩
    ⟨fun _ => some 7, fun _ => true, fun _ => true, "/tmp/t", 42⟩ rfl
  exact ⟨(h.1 ⟨some "rt", true⟩ rfl).1, h.2.1 rfl rfl,
    h.2.2 rfl ⟨fun _ => some 7, fun _ => true, fun _ => true, "/tmp/t", 42⟩⟩

/-- C5: starting the local daemon is idempotent with stale-PID recovery.
If a live PID is already tracked for the service, `_start_daemon` spawns
nothing and returns with the service, world and trace untouched. If the
PID file exists but the recorded process is dead (a non-silent service
with a set, existing runtime directory), the stale PID file is removed, a
fresh daemon process is spawned (which registers its own PID in the PID
file) and the service is not treated as already running. -/
theorem start_daemon_noop_when_live_and_respawns_when_stale :
    (∀ (svc : LocalDaemonService) (w : LocalWorld),
      natOptTruthy (svc.status.pid w) = true →
      svc.start_daemon w = Except.ok (svc, w, [])) ∧
    (∀ (svc : LocalDaemonService) (w : LocalWorld) (rp : String) (p : Nat),
      svc.status.runtime_path = some rp →
      rp.isEmpty = false →
      svc.status.silent_daemon = false →
      svc.config.silent_daemon = false →
      svc.endpoint = none →
      w.dirExists rp = true →
      w.pidFile (pathJoin rp SERVICE_DAEMON_PID_FILE_NAME) = some p →
      w.alive p = false →
      ∃ svc1 w2 command,
        svc.start_daemon w = Except.ok (svc1, w2,
          [LocalEvent.wroteConfigFile
             (pathJoin rp SERVICE_DAEMON_CONFIG_FILE_NAME),
           LocalEvent.removedPidFile
             (pathJoin rp SERVICE_DAEMON_PID_FILE_NAME),
           LocalEvent.touchedLogFile
             (pathJoin rp SERVICE_DAEMON_LOG_FILE_NAME),
           LocalEvent.spawned command]) ∧
        w2.pidFile (pathJoin rp SERVICE_DAEMON_PID_FILE_NAME) =
          some w.spawnPid) := by
  constructor
  · intro svc w h
    simp [LocalDaemonService.start_daemon, h]
  · intro svc w rp p hrp hrpe hsil hcsil hep hdir hw halive
    obtain ⟨u, cfg, st, ep⟩ := svc
    obtain ⟨csil, croot⟩ := cfg
    obtain ⟨rtp, sil⟩ := st
    simp only at hrp hsil hcsil hep
    subst hrp hsil hcsil hep
    have hpid : LocalDaemonServiceStatus.pid ⟨some rp, false⟩ w = none := by
      unfold LocalDaemonServiceStatus.pid LocalDaemonServiceStatus.pid_file
      simp [hrpe, get_daemon_pid_if_running, hw, halive]
    refine ⟨⟨u, ⟨false, croot⟩, ⟨some rp, false⟩, none⟩, ?_,
      daemonCommandPrefix ++
        ["--config-file", pathJoin rp SERVICE_DAEMON_CONFIG_FILE_NAME,
         "--pid-file", pathJoin rp SERVICE_DAEMON_PID_FILE_NAME,
         "--log-file", pathJoin rp SERVICE_DAEMON_LOG_FILE_NAME], ?_, ?_⟩
    · exact { w.removeFile (pathJoin rp SERVICE_DAEMON_PID_FILE_NAME) with
        pidFile := fun x =>
          if x = pathJoin rp SERVICE_DAEMON_PID_FILE_NAME then
            some (w.removeFile (pathJoin rp SERVICE_DAEMON_PID_FILE_NAME)).spawnPid
          else
            (w.removeFile (pathJoin rp SERVICE_DAEMON_PID_FILE_NAME)).pidFile x }
    · simp [LocalDaemonService.start_daemon, hpid, natOptTruthy,
        LocalDaemonService.get_daemon_cmd, strOptTruthy, hrpe, hdir,
        LocalDaemonServiceStatus.config_file,
        LocalDaemonServiceStatus.pid_file,
        LocalDaemonServiceStatus.log_file, hw, LocalWorld.removeFile]
    · simp [LocalWorld.removeFile]

/-- C5 witness: with a live recorded PID the start is a no-op; with a PID
file recording the dead process 7, the stale file is removed, a daemon is
spawned and the fresh PID 42 is registered. -/
theorem start_daemon_noop_when_live_and_respawns_when_stale_instance :
    LocalDaemonService.start_daemon
        ⟨"u", ⟨false, none⟩, ⟨some "rt", false⟩, none⟩
        ⟨fun _ => some 7, fun _ => true, fun _ => true, "/tmp/t", 42⟩ =
      Except.ok (⟨"u", ⟨false, none⟩, ⟨some "rt", false⟩, none⟩,
        ⟨fun _ => some 7, fun _ => true, fun _ => true, "/tmp/t", 42⟩, []) ∧
    ∃ svc1 w2 command,
      LocalDaemonService.start_daemon
          ⟨"u", ⟨false, none⟩, ⟨some "rt", false⟩, none⟩
          ⟨fun x => if x = "rt/service.pid" then some 7 else none,
           fun _ => false, fun _ => true, "/tmp/t", 42⟩ =
        Except.ok (svc1, w2,
          [LocalEvent.wroteConfigFile
             (pathJoin "rt" SERVICE_DAEMON_CONFIG_FILE_NAME),
           LocalEvent.removedPidFile
             (pathJoin "rt" SERVICE_DAEMON_PID_FILE_NAME),
           LocalEvent.touchedLogFile
             (pathJoin "rt" SERVICE_DAEMON_LOG_FILE_NAME),
           LocalEvent.spawned command]) ∧
      w2.pidFile (pathJoin "rt" SERVICE_DAEMON_PID_FILE_NAME) = some 42 := by
  exact ⟨start_daemon_noop_when_live_and_respawns_when_stale.1
      ⟨"u", ⟨false, none⟩, ⟨some "rt", false⟩, none⟩
      ⟨fun _ => some 7, fun _ => true, fun _ => true, "/tmp/t", 42⟩ rfl,
    start_daemon_noop_when_live_and_respawns_when_stale.2
      ⟨"u", ⟨false, none⟩, ⟨some "rt", false⟩, none⟩
      ⟨fun x => if x = "rt/service.pid" then some 7 else none,
       fun _ => false, fun _ => true, "/tmp/t", 42⟩ "rt" 7
      rfl rfl rfl rfl rfl rfl (by decide) rfl⟩

/-- C3 witness: the ordering theorem instantiated at a concrete backend
list. -/
theorem find_returns_services_newest_first_instance :
    (find_model_server
        [sampleRecord "u1" (some 1) ServiceState.ACTIVE ServiceState.ACTIVE false,
         sampleRecord "u2" (some 2) ServiceState.ACTIVE ServiceState.ACTIVE false]
        false none none none none none none none).Pairwise
      (fun s t => svcKey t ≤ svcKey s) :=
  (find_returns_services_newest_first.1
    [sampleRecord "u1" (some 1) ServiceState.ACTIVE ServiceState.ACTIVE false,
     sampleRecord "u2" (some 2) ServiceState.ACTIVE ServiceState.ACTIVE false]).1

/-- C6 witness: the unsupported operations instantiated at concrete
arguments. -/
theorem remote_stop_start_by_id_unsupported_instance :
    stop_model_server "u1" 5 true =
      Except.error DeployerError.notImplemented ∧
    start_model_server "u1" 5 =
      Except.error DeployerError.notImplemented :=
  remote_stop_start_by_id_unsupported "u1" 5 true 5

/-- C7 witness: a record whose snapshot says ERROR but whose evaluated
per-instance state is ACTIVE is included by the running filter. -/
theorem find_running_filter_uses_evaluated_status_instance :
    create_from_deployment
        (sampleRecord "u2" (some 2) ServiceState.ERROR ServiceState.ACTIVE
          false) ∈
      find_model_server
        [sampleRecord "u2" (some 2) ServiceState.ERROR ServiceState.ACTIVE false]
        true none none none none none none none :=
  (find_running_filter_uses_evaluated_status.1
      [sampleRecord "u2" (some 2) ServiceState.ERROR ServiceState.ACTIVE false]
      none none none none none none none
      (create_from_deployment
        (sampleRecord "u2" (some 2) ServiceState.ERROR ServiceState.ACTIVE
          false))).mpr
    ⟨⟨sampleRecord "u2" (some 2) ServiceState.ERROR ServiceState.ACTIVE false,
      by decide, rfl⟩, rfl⟩
